import Mathlib

/-
  Verification of the indicator-engine functions of `bot_streamlit.py`
  (and their counterparts in `bot_streamlit_works.py`):
  `calculate_fibonacci_levels`, `search_value_in_columns`, `calculate_rsi`.

  Modelling conventions:
  * Python floats are modelled by exact rationals `ℚ`; pandas float cells,
    which may be NaN or ±inf, are modelled by `PFloat`.  All decimal
    literals appearing in the source (0.236, 0.0001, ...) are exact
    decimals, so the rational embedding is faithful for them; in every
    place where `int(...)` truncation of such a product occurs, the float
    value and the rational value have the same integer part.
  * A pandas DataFrame is modelled by `DFrame`: an ordered list of column
    names together with the list of rows (each row a list of cells).
    A column has numeric dtype iff all of its cells are numbers or NaN.
  * A pandas Series of floats (input of `calculate_rsi`) is a `List ℚ`.
-/

namespace StreamlitFibo

/-- Python `int(q)`: truncation toward zero. -/
def pyInt (q : ℚ) : ℤ := if 0 ≤ q then q.floor else q.ceil

/-- `retracement_ratios = [0.236, 0.382, 0.5, 0.618, 0.786]` (line 8). -/
def retracement_ratios : List ℚ := [0.236, 0.382, 0.5, 0.618, 0.786]

/-- `extension_ratios = [1.0, 1.236, 1.382, 1.5, 1.618, 1.786, 2.0, 2.618]` (line 9). -/
def extension_ratios : List ℚ := [1.0, 1.236, 1.382, 1.5, 1.618, 1.786, 2.0, 2.618]

/-- `calculate_fibonacci_levels(high, low)` of `bot_streamlit.py`, lines 7-19.
Labels are f-strings `f"Retracement {int(ratio * 100)}%"` resp.
`f"Extension {int(ratio * 100)}%"`; the merged dict `{**retracement_levels,
**extension_levels}` is an ordered mapping with no key collisions, modelled
as an association list. -/
def calculate_fibonacci_levels (high low : ℚ) : List (String × ℚ) :=
  (retracement_ratios.map
    (fun r => ("Retracement " ++ toString (pyInt (r * 100)) ++ "%",
               low + (high - low) * r))) ++
  (extension_ratios.map
    (fun r => ("Extension " ++ toString (pyInt (r * 100)) ++ "%",
               high + (high - low) * (r - 1))))

/-- One cell of a DataFrame: a number, a missing value (NaN), or text. -/
inductive Cell where
  | num : ℚ → Cell
  | nan : Cell
  | txt : String → Cell
deriving DecidableEq, Repr

/-- A pandas DataFrame: ordered column names and rows of cells. -/
structure DFrame where
  colNames : List String
  rows : List (List Cell)
deriving DecidableEq, Repr

/-- A cell compatible with a numeric dtype (numbers and NaN). -/
def cellNumericLike : Cell → Bool
  | .num _ => true
  | .nan => true
  | .txt _ => false

/-- `pd.api.types.is_numeric_dtype` of a column's data: every cell numeric-like. -/
def is_numeric_dtype (cells : List Cell) : Bool := cells.all cellNumericLike

/-- The cells of column `col` in row order. -/
def colCells (data : DFrame) (col : String) : List Cell :=
  data.rows.map (fun row => row.getD (data.colNames.indexOf col) .nan)

/-- `data[col]`: the column's cells in row order; `none` models the
`KeyError` raised when the column is absent. -/
def getColumn (data : DFrame) (col : String) : Option (List Cell) :=
  if col ∈ data.colNames then some (colCells data col) else none

/-- `(data[col] >= value - tolerance) & (data[col] <= value + tolerance)` on
one cell (line 27).  Comparisons against NaN are false. -/
def inTolerance (value tolerance : ℚ) : Cell → Bool
  | .num x => decide (value - tolerance ≤ x) && decide (x ≤ value + tolerance)
  | _ => false

/-- The loop of `search_value_in_columns` (lines 23-31): fold over the
selected column names, accumulating the optional boolean mask `condition`
(`none` models Python's `None`).  The outer `Option` models a `KeyError`
on a missing column. -/
def buildCondition (data : DFrame) (value tolerance : ℚ) :
    List String → Option (List Bool) → Option (Option (List Bool))
  | [], condition => some condition
  | col :: cols, condition =>
    match getColumn data col with
    | none => none
    | some cells =>
      if is_numeric_dtype cells then
        buildCondition data value tolerance cols
          (some (match condition with
                 | none => cells.map (inTolerance value tolerance)
                 | some c =>
                     List.zipWith (fun a b => a || b) c
                       (cells.map (inTolerance value tolerance))))
      else
        buildCondition data value tolerance cols condition

/-- `search_value_in_columns(data, value, tolerance, cols_to_search)` of
`bot_streamlit.py`, lines 22-33.  `data[condition]` is boolean-mask row
selection; `pd.DataFrame()` (the `condition is None` case) is the frame
with no columns and no rows. -/
def search_value_in_columns (data : DFrame) (value tolerance : ℚ)
    (cols_to_search : List String) : Option DFrame :=
  match buildCondition data value tolerance cols_to_search none with
  | none => none
  | some none => some ⟨[], []⟩
  | some (some condition) =>
      some ⟨data.colNames,
            (data.rows.zip condition).filterMap
              (fun rb => if rb.2 then some rb.1 else none)⟩

/-- Whether the named column exists in `data` and has numeric dtype. -/
def colNumeric (data : DFrame) (col : String) : Bool :=
  match getColumn data col with
  | some cells => is_numeric_dtype cells
  | none => false

/-- Some selected column is numeric. -/
def hasNumeric (data : DFrame) (cols : List String) : Bool :=
  cols.any (colNumeric data)

/-- Row-level matching predicate: some selected numeric column's cell in
this row lies within the tolerance band. -/
def rowMatches (data : DFrame) (value tolerance : ℚ) (cols : List String)
    (row : List Cell) : Bool :=
  cols.any (fun col =>
    colNumeric data col &&
      inTolerance value tolerance (row.getD (data.colNames.indexOf col) .nan))

/-- A pandas float: NaN, +inf, -inf, or a finite value. -/
inductive PFloat where
  | nan : PFloat
  | pinf : PFloat
  | ninf : PFloat
  | val : ℚ → PFloat
deriving DecidableEq, Repr

/-- IEEE negation. -/
def pneg : PFloat → PFloat
  | .nan => .nan
  | .pinf => .ninf
  | .ninf => .pinf
  | .val a => .val (-a)

/-- `x > 0` on pandas floats (false for NaN). -/
def pPos : PFloat → Bool
  | .val a => decide (0 < a)
  | .pinf => true
  | _ => false

/-- `x < 0` on pandas floats (false for NaN). -/
def pNeg : PFloat → Bool
  | .val a => decide (a < 0)
  | .ninf => true
  | _ => false

/-- IEEE addition (cases reachable in this pipeline plus the standard ones). -/
def padd : PFloat → PFloat → PFloat
  | .nan, _ => .nan
  | _, .nan => .nan
  | .val a, .val b => .val (a + b)
  | .pinf, .ninf => .nan
  | .ninf, .pinf => .nan
  | .pinf, _ => .pinf
  | _, .pinf => .pinf
  | .ninf, _ => .ninf
  | _, .ninf => .ninf

/-- IEEE subtraction. -/
def psub (a b : PFloat) : PFloat := padd a (pneg b)

/-- IEEE division as numpy performs it elementwise: a finite nonzero value
divided by zero gives a signed infinity, `0/0` gives NaN, finite over
infinite gives `0`. -/
def pdiv : PFloat → PFloat → PFloat
  | .nan, _ => .nan
  | _, .nan => .nan
  | .val a, .val b =>
      if b = 0 then (if a = 0 then .nan else if 0 < a then .pinf else .ninf)
      else .val (a / b)
  | .val _, .pinf => .val 0
  | .val _, .ninf => .val 0
  | .pinf, .val b => if 0 ≤ b then .pinf else .ninf
  | .ninf, .val b => if 0 ≤ b then .ninf else .pinf
  | .pinf, .pinf => .nan
  | .pinf, .ninf => .nan
  | .ninf, .pinf => .nan
  | .ninf, .ninf => .nan

/-- `delta = data.diff()` (line 37): `delta[0]` is NaN, `delta[i] =
data[i] - data[i-1]` for `i ≥ 1`. -/
def deltaOf (data : List ℚ) : List PFloat :=
  (List.range data.length).map
    (fun i => if i = 0 then .nan else .val (data.getD i 0 - data.getD (i - 1) 0))

/-- `gain = delta.where(delta > 0, 0)` (line 38): keep where the condition
holds, else 0.  NaN compares false, so `gain[0] = 0`. -/
def gainOf (data : List ℚ) : List PFloat :=
  (deltaOf data).map (fun d => if pPos d then d else .val 0)

/-- `loss = -delta.where(delta < 0, 0)` (line 39). -/
def lossOf (data : List ℚ) : List PFloat :=
  (deltaOf data).map (fun d => pneg (if pNeg d then d else .val 0))

/-- The non-NaN observations inside the trailing window of size `period`
ending at index `i`. -/
def windowObs (period : ℕ) (xs : List PFloat) (i : ℕ) : List ℚ :=
  ((xs.take (i + 1)).drop (i + 1 - period)).filterMap
    (fun x => match x with | .val a => some a | _ => none)

/-- `xs.rolling(window=period, min_periods=period).mean()` (lines 42-43):
at index `i` the window is the trailing `period` entries; the mean is
defined when at least `period` non-NaN observations are present, which
for a full-window requirement means the window is full of observations. -/
def rollingMean (period : ℕ) (xs : List PFloat) : List PFloat :=
  (List.range xs.length).map (fun i =>
    if period ≤ (windowObs period xs i).length
    then .val ((windowObs period xs i).sum / ((windowObs period xs i).length : ℚ))
    else .nan)

/-- `avg_gain = gain.rolling(window=period, min_periods=period).mean()` (line 42). -/
def avg_gainOf (data : List ℚ) (period : ℕ) : List PFloat :=
  rollingMean period (gainOf data)

/-- `avg_loss = loss.rolling(window=period, min_periods=period).mean()` (line 43). -/
def avg_lossOf (data : List ℚ) (period : ℕ) : List PFloat :=
  rollingMean period (lossOf data)

/-- `rs = avg_gain / avg_loss` (line 46): elementwise float division,
performed before any replacement. -/
def rsRawOf (data : List ℚ) (period : ℕ) : List PFloat :=
  List.zipWith pdiv (avg_gainOf data period) (avg_lossOf data period)

/-- `rs = rs.replace({0: 0.0001})` (line 47): entries equal to 0 are
replaced by 0.0001 after the division; NaN and inf entries are untouched. -/
def rsOf (data : List ℚ) (period : ℕ) : List PFloat :=
  (rsRawOf data period).map (fun x => if x = .val 0 then .val 0.0001 else x)

/-- `calculate_rsi(data, period)` of `bot_streamlit.py`, lines 36-52:
`rsi = 100 - (100 / (1 + rs))` (line 50), returned without rounding. -/
def calculate_rsi (data : List ℚ) (period : ℕ) : List PFloat :=
  (rsOf data period).map
    (fun r => psub (.val 100) (pdiv (.val 100) (padd (.val 1) r)))

/-- Round to the nearest integer, ties to even (numpy rounding). -/
def roundHalfEven (q : ℚ) : ℤ :=
  if q - q.floor < 1/2 then q.floor
  else if (1:ℚ)/2 < q - q.floor then q.floor + 1
  else if Even q.floor then q.floor else q.floor + 1

/-- pandas `.round(2)` on one float: finite values are rounded to two
decimal places (half to even); NaN and infinities pass through. -/
def pround2 : PFloat → PFloat
  | .val q => .val ((roundHalfEven (q * 100) : ℚ) / 100)
  | x => x

/-- The RSI column stored by `main` (`bot_streamlit.py` line 99):
`calculate_rsi(stock_data['Close'], period=14).round(2)`. -/
def rsiColumn (close : List ℚ) : List PFloat :=
  (calculate_rsi close 14).map pround2

/-- `q` has at most two decimal places. -/
def isTwoDecimal (q : ℚ) : Prop := (q * 100).den = 1

instance (q : ℚ) : Decidable (isTwoDecimal q) := by
  unfold isTwoDecimal; infer_instance

namespace Works

/-- `retracement_ratios` of `bot_streamlit_works.py`, line 8. -/
def retracement_ratios : List ℚ := [0.236, 0.382, 0.5, 0.618, 0.786]

/-- `extension_ratios` of `bot_streamlit_works.py`, line 9. -/
def extension_ratios : List ℚ := [1.0, 1.236, 1.382, 1.5, 1.618, 1.786, 2.0, 2.618]

/-- `calculate_fibonacci_levels(high, low)` of `bot_streamlit_works.py`,
lines 7-19 (textually identical to the one in `bot_streamlit.py`). -/
def calculate_fibonacci_levels (high low : ℚ) : List (String × ℚ) :=
  (Works.retracement_ratios.map
    (fun r => ("Retracement " ++ toString (pyInt (r * 100)) ++ "%",
               low + (high - low) * r))) ++
  (Works.extension_ratios.map
    (fun r => ("Extension " ++ toString (pyInt (r * 100)) ++ "%",
               high + (high - low) * (r - 1))))

/-- The loop of `search_value_in_columns` of `bot_streamlit_works.py`,
lines 23-31 (textually identical to the one in `bot_streamlit.py`). -/
def buildCondition (data : DFrame) (value tolerance : ℚ) :
    List String → Option (List Bool) → Option (Option (List Bool))
  | [], condition => some condition
  | col :: cols, condition =>
    match getColumn data col with
    | none => none
    | some cells =>
      if is_numeric_dtype cells then
        Works.buildCondition data value tolerance cols
          (some (match condition with
                 | none => cells.map (inTolerance value tolerance)
                 | some c =>
                     List.zipWith (fun a b => a || b) c
                       (cells.map (inTolerance value tolerance))))
      else
        Works.buildCondition data value tolerance cols condition

/-- `search_value_in_columns` of `bot_streamlit_works.py`, lines 22-33. -/
def search_value_in_columns (data : DFrame) (value tolerance : ℚ)
    (cols_to_search : List String) : Option DFrame :=
  match Works.buildCondition data value tolerance cols_to_search none with
  | none => none
  | some none => some ⟨[], []⟩
  | some (some condition) =>
      some ⟨data.colNames,
            (data.rows.zip condition).filterMap
              (fun rb => if rb.2 then some rb.1 else none)⟩

end Works

/-- A strictly increasing close sequence of length 15. -/
def closes1 : List ℚ := [1, 2, 3, 4, 5, 6, 7, 8, 9, 10, 11, 12, 13, 14, 15]

/-- The close sequence of the spec's end-to-end scenario. -/
def ex3 : List ℚ := [10, 11, 12, 11, 10, 9, 10, 11, 12, 13, 14, 15, 16, 17, 18]

/-- A small frame: numeric column "A", text column "B". -/
def W2 : DFrame :=
  ⟨["A", "B"],
   [[Cell.num 1, Cell.txt "x"], [Cell.num 5, Cell.txt "y"],
    [Cell.num 2, Cell.txt "z"]]⟩

set_option maxRecDepth 100000

lemma zipWith_map_same {α β γ : Type} (op : β → β → γ) (f g : α → β) :
    ∀ l : List α, List.zipWith op (l.map f) (l.map g) = l.map (fun x => op (f x) (g x))
  | [] => rfl
  | x :: xs => by
    rw [List.map_cons, List.map_cons, List.zipWith_cons_cons,
      zipWith_map_same op f g xs, List.map_cons]

lemma zip_map_filter {α : Type} (f : α → Bool) :
    ∀ l : List α,
      (l.zip (l.map f)).filterMap (fun rb => if rb.2 then some rb.1 else none) =
        l.filter f
  | [] => rfl
  | x :: xs => by
    rw [List.map_cons, List.zip_cons_cons, List.filterMap_cons, List.filter_cons]
    cases h : f x <;> simp [h, zip_map_filter f xs]

lemma getColumn_mem (data : DFrame) (col : String) (h : col ∈ data.colNames) :
    getColumn data col = some (colCells data col) := by
  rw [getColumn, if_pos h]

lemma colNumeric_mem (data : DFrame) (col : String) (h : col ∈ data.colNames) :
    colNumeric data col = is_numeric_dtype (colCells data col) := by
  rw [colNumeric, getColumn_mem data col h]

lemma buildCondition_acc (data : DFrame) (v t : ℚ) :
    ∀ cols : List String, (∀ c ∈ cols, c ∈ data.colNames) →
      ∀ f : List Cell → Bool,
        buildCondition data v t cols (some (data.rows.map f)) =
          some (some (data.rows.map
            (fun row => f row || rowMatches data v t cols row))) := by
  intro cols
  induction cols with
  | nil => intro _ f; simp [buildCondition, rowMatches]
  | cons col cols ih =>
    intro h f
    have hcol : col ∈ data.colNames := h col (List.mem_cons_self col cols)
    have hrest : ∀ c ∈ cols, c ∈ data.colNames :=
      fun c hc => h c (List.mem_cons_of_mem col hc)
    simp only [buildCondition, getColumn_mem data col hcol]
    cases hnum : is_numeric_dtype (colCells data col) with
    | false =>
      simp only [Bool.false_eq_true, if_false]
      rw [ih hrest f]
      simp [rowMatches, List.any_cons, colNumeric_mem data col hcol, hnum]
    | true =>
      simp only [if_true]
      rw [show (colCells data col).map (inTolerance v t) =
            data.rows.map
              (fun row => inTolerance v t (row.getD (data.colNames.indexOf col) .nan))
          from by simp [colCells, List.map_map, Function.comp],
        zipWith_map_same (fun a b => a || b) f
          (fun row => inTolerance v t (row.getD (data.colNames.indexOf col) .nan)),
        ih hrest]
      simp [rowMatches, List.any_cons, colNumeric_mem data col hcol, hnum, Bool.or_assoc]

lemma buildCondition_no_numeric (data : DFrame) (v t : ℚ) :
    ∀ cols : List String, (∀ c ∈ cols, c ∈ data.colNames) →
      hasNumeric data cols = false →
      buildCondition data v t cols none = some none := by
  intro cols
  induction cols with
  | nil => intro _ _; rfl
  | cons col cols ih =>
    intro h hn
    have hcol : col ∈ data.colNames := h col (List.mem_cons_self col cols)
    have hrest : ∀ c ∈ cols, c ∈ data.colNames :=
      fun c hc => h c (List.mem_cons_of_mem col hc)
    rw [hasNumeric, List.any_cons, Bool.or_eq_false_iff] at hn
    have hnum : is_numeric_dtype (colCells data col) = false := by
      have h1 := hn.1
      rwa [colNumeric_mem data col hcol] at h1
    simp only [buildCondition, getColumn_mem data col hcol, hnum,
      Bool.false_eq_true, if_false]
    exact ih hrest (by rw [hasNumeric]; exact hn.2)

lemma buildCondition_numeric (data : DFrame) (v t : ℚ) :
    ∀ cols : List String, (∀ c ∈ cols, c ∈ data.colNames) →
      hasNumeric data cols = true →
      buildCondition data v t cols none =
        some (some (data.rows.map (rowMatches data v t cols))) := by
  intro cols
  induction cols with
  | nil => intro _ hn; simp [hasNumeric] at hn
  | cons col cols ih =>
    intro h hn
    have hcol : col ∈ data.colNames := h col (List.mem_cons_self col cols)
    have hrest : ∀ c ∈ cols, c ∈ data.colNames :=
      fun c hc => h c (List.mem_cons_of_mem col hc)
    simp only [buildCondition, getColumn_mem data col hcol]
    cases hnum : is_numeric_dtype (colCells data col) with
    | true =>
      simp only [if_true]
      rw [show (colCells data col).map (inTolerance v t) =
            data.rows.map
              (fun row => inTolerance v t (row.getD (data.colNames.indexOf col) .nan))
          from by simp [colCells, List.map_map, Function.comp],
        buildCondition_acc data v t cols hrest]
      simp [rowMatches, List.any_cons, colNumeric_mem data col hcol, hnum]
    | false =>
      simp only [Bool.false_eq_true, if_false]
      have hn' : hasNumeric data cols = true := by
        rw [hasNumeric, List.any_cons] at hn
        have hc0 : colNumeric data col = false := by
          rw [colNumeric_mem data col hcol]; exact hnum
        rw [hc0, Bool.false_or] at hn
        exact hn
      rw [ih hrest hn']
      simp [rowMatches, List.any_cons, colNumeric_mem data col hcol, hnum]

lemma rowMatches_eq_false (data : DFrame) (v t : ℚ) (cols : List String)
    (row : List Cell) (hn : hasNumeric data cols = false) :
    rowMatches data v t cols row = false := by
  rw [rowMatches, List.any_eq_false]
  rw [hasNumeric, List.any_eq_false] at hn
  intro col hcol
  simp only [Bool.and_eq_true, not_and]
  intro hcn
  exact absurd hcn (hn col hcol)

lemma search_empty_of_no_numeric (data : DFrame) (v t : ℚ) (cols : List String)
    (h : ∀ c ∈ cols, c ∈ data.colNames) (hn : hasNumeric data cols = false) :
    search_value_in_columns data v t cols = some ⟨[], []⟩ := by
  unfold search_value_in_columns
  rw [buildCondition_no_numeric data v t cols h hn]

lemma search_filter_of_numeric (data : DFrame) (v t : ℚ) (cols : List String)
    (h : ∀ c ∈ cols, c ∈ data.colNames) (hn : hasNumeric data cols = true) :
    search_value_in_columns data v t cols =
      some ⟨data.colNames, data.rows.filter (rowMatches data v t cols)⟩ := by
  unfold search_value_in_columns
  rw [buildCondition_numeric data v t cols h hn]
  show some (⟨data.colNames,
      (data.rows.zip (data.rows.map (rowMatches data v t cols))).filterMap
        (fun rb => if rb.2 then some rb.1 else none)⟩ : DFrame) = _
  rw [zip_map_filter]

lemma windowObs_length_le (period : ℕ) (xs : List PFloat) (i : ℕ) :
    (windowObs period xs i).length ≤ i + 1 := by
  refine le_trans (List.length_filterMap_le _ _) ?_
  rw [List.length_drop, List.length_take]
  omega

lemma rollingMean_length (period : ℕ) (xs : List PFloat) :
    (rollingMean period xs).length = xs.length := by
  simp [rollingMean]

lemma deltaOf_length (data : List ℚ) : (deltaOf data).length = data.length := by
  simp [deltaOf]

lemma gainOf_length (data : List ℚ) : (gainOf data).length = data.length := by
  simp [gainOf, deltaOf_length]

lemma lossOf_length (data : List ℚ) : (lossOf data).length = data.length := by
  simp [lossOf, deltaOf_length]

lemma rollingMean_getElem?_nan (period : ℕ) (xs : List PFloat) (i : ℕ)
    (h : i + 1 < period) (hi : i < xs.length) :
    (rollingMean period xs)[i]? = some .nan := by
  rw [rollingMean, List.getElem?_map, List.getElem?_range hi]
  have hobs : ¬ period ≤ (windowObs period xs i).length := by
    have := windowObs_length_le period xs i
    omega
  rw [Option.map_some', if_neg hobs]

lemma calculate_rsi_getD_nan (data : List ℚ) (period i : ℕ) (h : i + 1 < period) :
    (calculate_rsi data period).getD i .nan = .nan := by
  rw [List.getD_eq_getElem?_getD, calculate_rsi, List.getElem?_map, rsOf,
    List.getElem?_map, rsRawOf, List.getElem?_zipWith]
  rcases lt_or_le i data.length with hi | hi
  · rw [avg_gainOf, rollingMean_getElem?_nan period _ i h (by rw [gainOf_length]; exact hi),
      avg_lossOf, rollingMean_getElem?_nan period _ i h (by rw [lossOf_length]; exact hi)]
    rfl
  · have h1 : (avg_gainOf data period)[i]? = none := by
      rw [List.getElem?_eq_none]
      rw [avg_gainOf, rollingMean_length, gainOf_length]
      exact hi
    rw [h1]
    rfl

lemma rowMatches_mono (data : DFrame) (v t1 t2 : ℚ) (cols : List String)
    (row : List Cell) (h12 : t1 ≤ t2)
    (hm : rowMatches data v t1 cols row = true) :
    rowMatches data v t2 cols row = true := by
  rw [rowMatches, List.any_eq_true] at hm ⊢
  obtain ⟨col, hcol, hp⟩ := hm
  refine ⟨col, hcol, ?_⟩
  rw [Bool.and_eq_true] at hp ⊢
  refine ⟨hp.1, ?_⟩
  have h2 := hp.2
  cases hc : row.getD (data.colNames.indexOf col) Cell.nan with
  | num x =>
    rw [hc] at h2
    simp only [inTolerance, Bool.and_eq_true, decide_eq_true_eq] at h2 ⊢
    exact ⟨by linarith [h2.1], by linarith [h2.2]⟩
  | nan => rw [hc] at h2; simp [inTolerance] at h2
  | txt s => rw [hc] at h2; simp [inTolerance] at h2

lemma buildCondition_eq_works (data : DFrame) (v t : ℚ) :
    ∀ (cols : List String) (acc : Option (List Bool)),
      buildCondition data v t cols acc = Works.buildCondition data v t cols acc := by
  intro cols
  induction cols with
  | nil => intro _; rfl
  | cons col cols ih =>
    intro acc
    simp only [buildCondition, Works.buildCondition]
    cases getColumn data col with
    | none => rfl
    | some cells =>
      dsimp only
      cases is_numeric_dtype cells with
      | true => exact ih _
      | false => exact ih _

lemma isTwoDecimal_intCast_div (m : ℤ) : isTwoDecimal ((m : ℚ) / 100) := by
  unfold isTwoDecimal
  rw [div_mul_cancel₀]
  · exact Rat.den_intCast m
  · norm_num

/-- C1: in `calculate_rsi`, the claimed substitution of `avg_loss` before the
division does not happen.  On the strictly increasing closes `closes1` with
period 14, `avg_loss[13] = 0`, the division is performed anyway and yields
`rs[13] = +inf` (which `replace({0: 0.0001})` leaves untouched), and the
resulting RSI is exactly 100. -/
theorem rsi_division_by_zero_occurs :
    (avg_lossOf closes1 14).getD 13 .nan = .val 0 ∧
    (rsOf closes1 14).getD 13 .nan = .pinf ∧
    (calculate_rsi closes1 14).getD 13 .nan = .val 100 := by
  with_unfolding_all decide

/-- C2: the defined RSI outputs do not stay strictly below 100: on the
strictly increasing closes `closes1` with period 14 the value at index 14 is
exactly 100. -/
theorem rsi_reaches_hundred :
    (calculate_rsi closes1 14).getD 14 .nan = .val 100 := by
  with_unfolding_all decide

/-- C3 counterexample: on the spec's end-to-end scenario
`ex3 = [10,11,12,11,10,9,10,11,12,13,14,15,16,17,18]` with period 14, the
output at index 13 is the defined value `1000/13 ≈ 76.92`, not null —
contradicting the claim that all indices before 14 are null. -/
theorem rsi_defined_at_thirteen :
    (calculate_rsi ex3 14).getD 13 .nan = .val (1000 / 13) ∧
    (calculate_rsi ex3 14).getD 13 .nan ≠ .nan := by
  with_unfolding_all decide

/-- C3 (amended): for every input and period, output positions `0 ≤ i <
period - 1` are null; on the spec's scenario `ex3` with period 14 the first
defined RSI value appears at index 13 (value `1000/13`), one position
earlier than the claimed index 14, because `delta.where(delta > 0, 0)`
turns the NaN at `delta[0]` into a 0-valued observation. -/
theorem rsi_warmup_nulls :
    (∀ (data : List ℚ) (period i : ℕ), i + 1 < period →
        (calculate_rsi data period).getD i .nan = .nan) ∧
    (calculate_rsi ex3 14).getD 13 .nan = .val (1000 / 13) := by
  constructor
  · intro data period i h
    exact calculate_rsi_getD_nan data period i h
  · with_unfolding_all decide

/-- Witness for `rsi_warmup_nulls` at a concrete input. -/
theorem rsi_warmup_nulls_witness :
    (calculate_rsi ex3 14).getD 5 .nan = .nan :=
  rsi_warmup_nulls.1 ex3 14 5 (by decide)

/-- C4 counterexample: `calculate_fibonacci_levels(100, 0)` has no key
"Retracement 61.8%"; the labels use Python `int` truncation, so the key is
"Retracement 61%". -/
theorem fib_label_618_absent :
    (calculate_fibonacci_levels 100 0).lookup "Retracement 61.8%" = none := by
  with_unfolding_all decide

/-- C4 (amended): for every (high, low) the keys are
`"Retracement {int(r*100)}%"` / `"Extension {int(r*100)}%"` (truncation,
not rounding), in retracement-then-extension order; in particular
`calculate_fibonacci_levels(100, 0)` maps "Retracement 61%" to 61.8 and
"Extension 161%" to 161.8. -/
theorem fib_labels_truncated :
    ∀ high low : ℚ,
      (calculate_fibonacci_levels high low).map Prod.fst =
        ["Retracement 23%", "Retracement 38%", "Retracement 50%",
         "Retracement 61%", "Retracement 78%", "Extension 100%",
         "Extension 123%", "Extension 138%", "Extension 150%",
         "Extension 161%", "Extension 178%", "Extension 200%",
         "Extension 261%"] ∧
      (calculate_fibonacci_levels 100 0).lookup "Retracement 61%" =
        some (618 / 10) ∧
      (calculate_fibonacci_levels 100 0).lookup "Extension 161%" =
        some (1618 / 10) := by
  intro high low
  refine ⟨by with_unfolding_all rfl, ?_, ?_⟩
  · with_unfolding_all decide
  · with_unfolding_all decide

/-- C5: with a tolerance `t ≥ 0` and a non-empty selection of existing
columns, `search_value_in_columns` returns exactly the rows for which some
selected numeric column's value lies in `[value - t, value + t]`
(`rowMatches`, an OR over the selected columns that skips non-numeric
columns), in original row order; when at least one selected column is
numeric all original columns are preserved (otherwise the result is the
empty `pd.DataFrame()`). -/
theorem search_matches_spec :
    ∀ (data : DFrame) (value tolerance : ℚ) (cols : List String),
      0 ≤ tolerance → cols ≠ [] → (∀ c ∈ cols, c ∈ data.colNames) →
      search_value_in_columns data value tolerance cols =
        some ⟨if hasNumeric data cols = true then data.colNames else [],
              data.rows.filter (rowMatches data value tolerance cols)⟩ := by
  intro data v t cols _ _ h
  cases hn : hasNumeric data cols with
  | false =>
    rw [search_empty_of_no_numeric data v t cols h hn]
    have hfil : data.rows.filter (rowMatches data v t cols) = [] := by
      rw [List.filter_eq_nil_iff]
      intro row _
      rw [rowMatches_eq_false data v t cols row hn]
      exact Bool.false_ne_true
    rw [hfil]
    simp
  | true =>
    rw [search_filter_of_numeric data v t cols h hn]
    simp

/-- Witness for `search_matches_spec` at a concrete frame. -/
theorem search_matches_spec_witness :
    search_value_in_columns W2 1 1 ["A", "B"] =
      some ⟨if hasNumeric W2 ["A", "B"] = true then W2.colNames else [],
            W2.rows.filter (rowMatches W2 1 1 ["A", "B"])⟩ :=
  search_matches_spec W2 1 1 ["A", "B"] (by norm_num) (by decide) (by decide)

/-- C6: enlarging the tolerance never loses a matched row: every row in the
result for tolerance `t1` is in the result for tolerance `t2 ≥ t1`. -/
theorem search_tolerance_mono :
    ∀ (data : DFrame) (value : ℚ) (cols : List String) (t1 t2 : ℚ),
      0 ≤ t1 → t1 ≤ t2 → (∀ c ∈ cols, c ∈ data.colNames) →
      ∀ (res1 res2 : DFrame) (row : List Cell),
        search_value_in_columns data value t1 cols = some res1 →
        search_value_in_columns data value t2 cols = some res2 →
        row ∈ res1.rows → row ∈ res2.rows := by
  intro data v cols t1 t2 _ h12 h res1 res2 row e1 e2 hmem
  cases hn : hasNumeric data cols with
  | false =>
    rw [search_empty_of_no_numeric data v t1 cols h hn] at e1
    have : res1 = (⟨[], []⟩ : DFrame) := by
      injection e1 with e1'
      exact e1'.symm
    rw [this] at hmem
    simp at hmem
  | true =>
    rw [search_filter_of_numeric data v t1 cols h hn] at e1
    rw [search_filter_of_numeric data v t2 cols h hn] at e2
    have r1 : res1 = (⟨data.colNames, data.rows.filter (rowMatches data v t1 cols)⟩ : DFrame) := by
      injection e1 with e1'
      exact e1'.symm
    have r2 : res2 = (⟨data.colNames, data.rows.filter (rowMatches data v t2 cols)⟩ : DFrame) := by
      injection e2 with e2'
      exact e2'.symm
    rw [r1] at hmem
    rw [r2]
    rw [List.mem_filter] at hmem ⊢
    exact ⟨hmem.1, rowMatches_mono data v t1 t2 cols row h12 hmem.2⟩

/-- Witness for `search_tolerance_mono`: the row matched at tolerance 0 is
still matched at tolerance 1. -/
theorem search_tolerance_mono_witness :
    [Cell.num 1, Cell.txt "x"] ∈
      (⟨["A", "B"],
        [[Cell.num 1, Cell.txt "x"], [Cell.num 2, Cell.txt "z"]]⟩ : DFrame).rows :=
  search_tolerance_mono W2 1 ["A"] 0 1 (by norm_num) (by norm_num) (by decide)
    ⟨["A", "B"], [[Cell.num 1, Cell.txt "x"]]⟩
    ⟨["A", "B"], [[Cell.num 1, Cell.txt "x"], [Cell.num 2, Cell.txt "z"]]⟩
    [Cell.num 1, Cell.txt "x"]
    (by with_unfolding_all decide) (by with_unfolding_all decide) (by decide)

/-- C7: the "Retracement 50%" level is exactly the midpoint `(high + low) / 2`. -/
theorem fib_retracement_50_mid :
    ∀ high low : ℚ, low ≤ high →
      (calculate_fibonacci_levels high low).lookup "Retracement 50%" =
        some ((high + low) / 2) := by
  intro high low _
  have h : (calculate_fibonacci_levels high low).lookup "Retracement 50%" =
      some (low + (high - low) * (1 / 2)) := by
    with_unfolding_all rfl
  rw [h]
  exact congrArg some (by ring)

/-- Witness for `fib_retracement_50_mid` at (4, 2). -/
theorem fib_retracement_50_mid_witness :
    (calculate_fibonacci_levels 4 2).lookup "Retracement 50%" =
      some ((4 + 2) / 2) :=
  fib_retracement_50_mid 4 2 (by norm_num)

/-- C8 counterexample: the sequence returned by `calculate_rsi` itself is
not rounded: on `ex3` with period 14 the value at index 13 is `1000/13`,
which does not have two decimal places.  The rounding happens in `main`
(line 99), not inside `calculate_rsi`. -/
theorem rsi_output_not_rounded :
    (calculate_rsi ex3 14).getD 13 .nan = .val (1000 / 13) ∧
    ¬ isTwoDecimal (1000 / 13) := by
  with_unfolding_all decide

/-- C8 (amended): the RSI column stored by `main`, i.e.
`calculate_rsi(close, 14).round(2)` (`rsiColumn`), has every defined value
rounded to two decimal places. -/
theorem rsi_column_rounded :
    ∀ (close : List ℚ) (i : ℕ) (q : ℚ),
      (rsiColumn close).getD i .nan = .val q → isTwoDecimal q := by
  intro close i q h
  rw [rsiColumn, List.getD_eq_getElem?_getD, List.getElem?_map] at h
  cases hx : (calculate_rsi close 14)[i]? with
  | none => rw [hx] at h; simp at h
  | some x =>
    rw [hx] at h
    simp only [Option.map_some', Option.getD_some] at h
    cases x with
    | val q0 =>
      simp only [pround2] at h
      cases h
      exact isTwoDecimal_intCast_div _
    | nan => simp [pround2] at h
    | pinf => simp [pround2] at h
    | ninf => simp [pround2] at h

/-- Witness for `rsi_column_rounded`: the rounded value 76.92 at index 13
of the `ex3` column. -/
theorem rsi_column_rounded_witness : isTwoDecimal (7692 / 100) :=
  rsi_column_rounded ex3 13 (7692 / 100) (by with_unfolding_all decide)

/-- C9: an empty column selection yields the empty frame (no error), and so
does any selection of existing columns none of which is numeric. -/
theorem search_no_numeric_empty :
    ∀ (data : DFrame) (value tolerance : ℚ),
      search_value_in_columns data value tolerance [] = some ⟨[], []⟩ ∧
      ∀ cols : List String, (∀ c ∈ cols, c ∈ data.colNames) →
        hasNumeric data cols = false →
        search_value_in_columns data value tolerance cols = some ⟨[], []⟩ := by
  intro data v t
  exact ⟨rfl, fun cols h hn => search_empty_of_no_numeric data v t cols h hn⟩

/-- Witness for `search_no_numeric_empty`: selecting only the text column
"B" of `W2` returns the empty frame. -/
theorem search_no_numeric_empty_witness :
    search_value_in_columns W2 0 1 ["B"] = some ⟨[], []⟩ :=
  (search_no_numeric_empty W2 0 1).2 ["B"] (by decide) (by with_unfolding_all decide)

/-- C10: the indicator functions of `bot_streamlit.py` and
`bot_streamlit_works.py` are extensionally equal: identical Fibonacci
mappings for every (high, low), and identical search results for every
frame, target, tolerance and column selection. -/
theorem two_sources_agree :
    (∀ high low : ℚ,
        calculate_fibonacci_levels high low =
          Works.calculate_fibonacci_levels high low) ∧
    (∀ (data : DFrame) (value tolerance : ℚ) (cols : List String),
        search_value_in_columns data value tolerance cols =
          Works.search_value_in_columns data value tolerance cols) := by
  constructor
  · intro high low
    rfl
  · intro data v t cols
    unfold search_value_in_columns Works.search_value_in_columns
    rw [buildCondition_eq_works]

end StreamlitFibo
